import Mathlib

/-!
# Verification of the SAN datastore reconciliation modules

Shallow embedding of `library/vmware_host_datastore_san.py` (the
mount/unmount reconciler `VMwareHostSanDatastore`) and
`library/vmware_datastore_san_facts.py` (the read-only facts gatherer
`VMwareDatastore`).

The remote vSphere inventory is modelled as an explicit `World` value:
hosts, datastores (with their VMFS extents, mounting hosts and the
expand options the endpoint would report for them), folders, the create
options the endpoint would report per device path, and the set of
unmount calls that would fault.  A reconciliation run is a pure function
from module parameters and a world to an outcome, the list of remote
calls issued (in order), and the successor world.

Environment semantics used for world transitions (the remote API is
external to the repository, so its effects follow the vSphere semantics
the spec describes): creating a datastore adds it to the inventory,
backed by the device of the chosen create option; expanding a datastore
consumes exactly the expand option that was applied (the free space it
described is now part of the volume), leaving options for other devices
in place; unmounting removes the host from the datastore's mount list;
removing a datastore deletes it from the inventory.  Rescans refresh a
host's view and do not change the modelled inventory.
-/

namespace SanDatastore

/-- Python truthiness of an optional string: `None` and `""` are falsy. -/
def pyTruthy : Option String → Bool
  | none => false
  | some s => !s.isEmpty

/-- Python `str()` applied to an optional string: `str(None) = "None"`. -/
def pyStr : Option String → String
  | none => "None"
  | some s => s

/-- Contiguous-sublist test on character lists, by recursion on the
haystack. -/
def charsInfix (needle : List Char) : List Char → Bool
  | [] => needle.isPrefixOf []
  | c :: cs => needle.isPrefixOf (c :: cs) || charsInfix needle cs

/-- Python substring test `needle in hay` on strings. -/
def pySubstr (needle hay : String) : Bool :=
  charsInfix needle.toList hay.toList

/-- Python `s.lower()`, character-wise (ASCII case folding, as the device
identifiers in scope are ASCII). -/
def pyLower (s : String) : String :=
  { data := s.data.map Char.toLower }

/-- Python `s.split('.')` on a character list: splitting on `'.'`, with
`"".split('.') == [""]` and empty segments preserved. -/
def splitDotChars : List Char → List (List Char)
  | [] => [[]]
  | c :: cs =>
    if c = '.' then [] :: splitDotChars cs
    else
      match splitDotChars cs with
      | [] => [[c]]
      | g :: gs => (c :: g) :: gs

/-- Python `s.split('.')[-1]`: the trailing dot-separated segment. -/
def pyLastDotSeg (s : String) : String :=
  { data := (splitDotChars s.data).getLastD [] }

/-- One VMFS extent (`HostScsiDiskPartition`-backed), carrying its disk name. -/
structure VmfsExtent where
  diskName : String
deriving Repr, DecidableEq

/-- The spec inside one expand option (`VmfsDatastoreExpandSpec`): the code
only inspects `spec.extent.diskName`. -/
structure VmfsExpandSpec where
  extent : VmfsExtent
deriving Repr, DecidableEq

/-- One element of a `QueryVmfsDatastoreExpandOptions` result. -/
structure VmfsExpandOption where
  spec : VmfsExpandSpec
deriving Repr, DecidableEq

/-- The spec inside one create option (`VmfsDatastoreCreateSpec`).
`volumeName` is the field the module overwrites; `diskName` is the device
the spec would place the volume on; `resultUuid` and `resultExpandOptions`
are environment data describing the datastore that creation with this
spec yields (its VMFS uuid and the expand options then reported for it). -/
structure VmfsCreateSpec where
  volumeName : String
  diskName : String
  resultUuid : String
  resultExpandOptions : List VmfsExpandOption
deriving Repr, DecidableEq

/-- One element of a `QueryVmfsDatastoreCreateOptions` result. -/
structure VmfsCreateOption where
  spec : VmfsCreateSpec
deriving Repr, DecidableEq

/-- A datastore in the inventory: name, VMFS uuid, extents, the names of the
hosts currently mounting it (`datastore.host`), the expand options the
endpoint currently reports for it, and the summary/parent fields that the
facts module reads (`maintenanceMode`, `url`, parent storage pod, VMFS
type). -/
structure Datastore where
  name : String
  uuid : String
  extents : List VmfsExtent
  hosts : List String
  expandOptions : List VmfsExpandOption
  maintenanceMode : String := "normal"
  url : String := ""
  parentPod : Option String := none
  vmfsType : String := "VMFS"
deriving Repr, DecidableEq

/-- An ESXi host: its name and the name of its parent cluster
(`esxi.parent.name`). -/
structure Host where
  name : String
  clusterName : String
deriving Repr, DecidableEq

/-- A vCenter folder, its children given by name (`childEntity`). -/
structure Folder where
  name : String
  childEntities : List String
deriving Repr, DecidableEq

/-- The modelled inventory plus environment behaviour: `createOptions`
maps a device path to the `QueryVmfsDatastoreCreateOptions` result for
it, and `unmountFaults` lists the `(host, uuid, fault message)` triples
for which `UnmountVmfsVolume` raises. -/
structure World where
  hosts : List Host
  datastores : List Datastore
  folders : List Folder
  createOptions : List (String × List VmfsCreateOption) := []
  unmountFaults : List (String × String × String) := []
deriving Repr, DecidableEq

/-- `find_hostsystem_by_name`: first host with the given name. -/
def findHost (w : World) (name : String) : Option Host :=
  w.hosts.find? (fun h => h.name == name)

/-- `find_datastore_by_name`: first datastore with the given name. -/
def findDatastore (w : World) (name : String) : Option Datastore :=
  w.datastores.find? (fun d => d.name == name)

/-- The `QueryVmfsDatastoreCreateOptions` result for a device path. -/
def lookupCreateOptions (w : World) (path : String) : List VmfsCreateOption :=
  ((w.createOptions.find? (fun e => e.1 == path)).map (fun e => e.2)).getD []

/-- The fault message `UnmountVmfsVolume` raises on the given host for the
given VMFS uuid, when the environment makes that call fail. -/
def lookupUnmountFault (w : World) (h uuid : String) : Option String :=
  ((w.unmountFaults.find? (fun e => e.1 == h && e.2.1 == uuid)).map (fun e => e.2.2))

/-- Desired state of the mutation module. -/
inductive DsState where
  | present
  | absent
deriving Repr, DecidableEq

/-- Parameters of `vmware_host_datastore_san` (after `AnsibleModule`
validation: `datastore_name` and `esxi_hostname` required, `state` one of
the two choices). -/
structure ModuleParams where
  datastore_name : String
  esxi_hostname : String
  volume_device_name : Option String := none
  datastore_cluster_name : Option String := none
  dsState : DsState := .present
deriving Repr, DecidableEq

/-- The remote calls the reconciler can issue, in the order issued. -/
inductive Call where
  | rescanHba (host : String)
  | rescanVmfs (host : String)
  | queryCreateOptions (host : String) (path : String)
  | createDatastore (host : String) (spec : VmfsCreateSpec)
  | moveIntoFolder (tgt : String) (src : String)
  | queryExpandOptions (ds : String)
  | expandDatastore (ds : String) (spec : VmfsExpandSpec)
  | unmountVmfs (host : String) (uuid : String)
  | removeDatastore (host : String) (ds : String)
deriving Repr, DecidableEq

/-- Module result: `exit_json(changed=..., result=...)` or
`fail_json(msg=...)`. -/
inductive Outcome where
  | exited (changed : Bool) (result : Option String)
  | failed (msg : String)
deriving Repr, DecidableEq

/-- Result of one reconciliation run: outcome, issued calls in order, and
the successor world. -/
structure RunResult where
  outcome : Outcome
  calls : List Call
  world : World
deriving Repr, DecidableEq

/-- The `volume_device_name` attribute after `__init__`: lower-cased when
truthy (lower-casing the empty string is the identity, so `Option.map`
is faithful). -/
def effDevice (p : ModuleParams) : Option String :=
  p.volume_device_name.map pyLower

/-- `"Cannot mount datastore %s on host %s" % (datastore_name, esxi_hostname)`. -/
def mountErr (p : ModuleParams) : String :=
  "Cannot mount datastore " ++ p.datastore_name ++ " on host " ++ p.esxi_hostname

/-- `"Cannot umount datastore %s from host %s" % (datastore_name, esxi_hostname)`. -/
def umountErr (p : ModuleParams) : String :=
  "Cannot umount datastore " ++ p.datastore_name ++ " from host " ++ p.esxi_hostname

/-- `existing_wwns = [x.diskName.split('.')[-1] for x in datastore.info.vmfs.extent]`. -/
def existingWwns (d : Datastore) : List String :=
  d.extents.map (fun x => pyLastDotSeg x.diskName)

/-- `rescan_other_hosts_in_cluster`: for every host of the target host's
parent cluster other than the target, rescan HBA then VMFS. -/
def rescanOtherCalls (w : World) (esxi : Host) (esxiHostname : String) : List Call :=
  (w.hosts.filter (fun h => h.clusterName == esxi.clusterName)).flatMap
    (fun h => if h.name != esxiHostname then
        [Call.rescanHba h.name, Call.rescanVmfs h.name] else [])

/-- First host (in `datastore.host` order) whose unmount of the given uuid
faults, with the fault message. -/
def firstUnmountFault (w : World) (uuid : String) : List String → Option (String × String)
  | [] => none
  | h :: hs =>
    match lookupUnmountFault w h uuid with
    | some m => some (h, m)
    | none => firstUnmountFault w uuid hs

/-- The unmount calls issued by the removal loop: one per mounting host in
order, stopping after the first faulting call (which is still issued). -/
def unmountCallsIssued (w : World) (uuid : String) : List String → List Call
  | [] => []
  | h :: hs =>
    match lookupUnmountFault w h uuid with
    | some _ => [Call.unmountVmfs h uuid]
    | none => Call.unmountVmfs h uuid :: unmountCallsIssued w uuid hs

/-- Erase a datastore (first occurrence by name) from the inventory:
`RemoveDatastore`. -/
def removeDs (w : World) (name : String) : World :=
  { w with datastores := w.datastores.eraseP (fun d => d.name == name) }

/-- Apply an expand option to a datastore: the applied option is consumed
(its free space now belongs to the volume), options for other regions
remain; extents and hosts are untouched. -/
def applyExpand (w : World) (name : String) (o : VmfsExpandOption) : World :=
  { w with datastores := w.datastores.map (fun d =>
      if d.name == name then { d with expandOptions := d.expandOptions.erase o } else d) }

/-- Record the created datastore in the inventory: name from the (already
overwritten) spec volume name, backed by the spec's device, mounted on the
creating host, expand options as the environment reports for the fresh
volume. -/
def applyCreate (w : World) (esxiHostname : String) (spec : VmfsCreateSpec) : World :=
  { w with datastores := w.datastores ++
      [{ name := spec.volumeName
       , uuid := spec.resultUuid
       , extents := [{ diskName := spec.diskName }]
       , hosts := [esxiHostname]
       , expandOptions := spec.resultExpandOptions }] }

/-- `umount_san_datastore_host` when the datastore was found: unmount the
volume (by VMFS uuid) on every mounting host, then remove the datastore
from the target host; a faulting unmount aborts with the umount error
message and the fault text, and no removal is issued. -/
def umountFound (p : ModuleParams) (w : World) (d : Datastore) (calls0 : List Call) : RunResult :=
  let calls := calls0 ++ unmountCallsIssued w d.uuid d.hosts
  match firstUnmountFault w d.uuid d.hosts with
  | some f =>
    { outcome := .failed (umountErr p ++ ": " ++ f.2)
    , calls := calls
    , world := w }
  | none =>
    { outcome := .exited true (some ("Datastore " ++ p.datastore_name ++ " on host " ++ p.esxi_hostname))
    , calls := calls ++ [Call.removeDatastore p.esxi_hostname d.name]
    , world := removeDs w d.name }

/-- `umount_san_datastore_host`. -/
def umountSanDatastoreHost (p : ModuleParams) (w : World) (ds? : Option Datastore)
    (calls0 : List Call) : RunResult :=
  match ds? with
  | none => { outcome := .exited false none, calls := calls0, world := w }
  | some d => umountFound p w d calls0

/-- The folder move of the create branch, when `datastore_cluster_name` is
truthy: resolve the `datastore` folder, the source child and the target
child (an out-of-range index aborts the run), issue the move, and build
the cluster result message (`str(result)` of the awaited move task is
`"None"`). -/
def clusterMove (p : ModuleParams) (w : World) (cluster : String) :
    Option (List Call × String) :=
  match w.folders.find? (fun f => f.name == "datastore") with
  | none => none
  | some dsfolder =>
    if dsfolder.childEntities.contains p.datastore_name then
      if dsfolder.childEntities.contains cluster then
        some ([Call.moveIntoFolder cluster p.datastore_name]
             , "Datastore " ++ p.datastore_name ++ " of cluster " ++ cluster
               ++ " on host " ++ p.esxi_hostname ++ " : None")
      else none
    else none

/-- The create branch of `mount_san_datastore_host` (datastore absent):
query create options for the device path, overwrite the first option's
volume name, create, optionally move into the datastore-cluster folder,
rescan the other hosts of the cluster, and report changed.  An empty
options list or a failed folder lookup raises `IndexError`, caught and
reported with the mount error prefix. -/
def mountCreate (p : ModuleParams) (w : World) (esxi : Host) (calls0 : List Call) : RunResult :=
  let dsPath := "/vmfs/devices/disks/naa." ++ pyStr (effDevice p)
  let calls1 := calls0 ++ [Call.queryCreateOptions p.esxi_hostname dsPath]
  match lookupCreateOptions w dsPath with
  | [] =>
    { outcome := .failed (mountErr p ++ " : list index out of range")
    , calls := calls1, world := w }
  | o :: _ =>
    let spec := { o.spec with volumeName := p.datastore_name }
    let calls2 := calls1 ++ [Call.createDatastore p.esxi_hostname spec]
    let w1 := applyCreate w p.esxi_hostname spec
    let baseMsg := "Datastore " ++ p.datastore_name ++ " on host " ++ p.esxi_hostname
    if pyTruthy p.datastore_cluster_name then
      match clusterMove p w1 (pyStr p.datastore_cluster_name) with
      | none =>
        { outcome := .failed (mountErr p ++ " : list index out of range")
        , calls := calls2, world := w1 }
      | some (mv, msg) =>
        { outcome := .exited true (some msg)
        , calls := calls2 ++ mv ++ rescanOtherCalls w1 esxi p.esxi_hostname
        , world := w1 }
    else
      { outcome := .exited true (some baseMsg)
      , calls := calls2 ++ rescanOtherCalls w1 esxi p.esxi_hostname
      , world := w1 }

/-- The expand branch of `mount_san_datastore_host` (datastore present and
the device identifier already among the extents' trailing segments):
query expand options; with a non-empty result pick the first option whose
extent disk name contains the device identifier (an empty filter raises
`IndexError`, caught and reported with the mount error prefix), expand and
report changed; with no options fall through to the unchanged exit. -/
def mountExpand (p : ModuleParams) (w : World) (d : Datastore) (dev : String)
    (calls0 : List Call) : RunResult :=
  let calls1 := calls0 ++ [Call.queryExpandOptions d.name]
  if d.expandOptions.length > 0 then
    match d.expandOptions.filter (fun x => pySubstr (pyLower dev) x.spec.extent.diskName) with
    | [] =>
      { outcome := .failed (mountErr p ++ " : list index out of range")
      , calls := calls1, world := w }
    | m :: _ =>
      { outcome := .exited true (some ("Expanded storage on datastore " ++ p.datastore_name))
      , calls := calls1 ++ [Call.expandDatastore d.name m.spec]
      , world := applyExpand w d.name m }
  else
    { outcome := .exited false none, calls := calls1, world := w }

/-- `mount_san_datastore_host`. -/
def mountSanDatastoreHost (p : ModuleParams) (w : World) (esxi : Host)
    (ds? : Option Datastore) (calls0 : List Call) : RunResult :=
  match ds? with
  | none => mountCreate p w esxi calls0
  | some d =>
    match effDevice p with
    | some dev =>
      if dev ∈ existingWwns d then mountExpand p w d dev calls0
      else { outcome := .exited false none, calls := calls0, world := w }
    | none => { outcome := .exited false none, calls := calls0, world := w }

/-- One full run of the mutation module: `__init__` resolves the host (a
missing host is fatal before any call), `check_datastore_host_state`
rescans the target host's HBAs and looks the datastore up by name, and
the state handler runs. -/
def reconcile (p : ModuleParams) (w : World) : RunResult :=
  match findHost w p.esxi_hostname with
  | none =>
    { outcome := .failed ("Failed to find ESXi hostname " ++ p.esxi_hostname ++ " ")
    , calls := [], world := w }
  | some esxi =>
    let calls0 := [Call.rescanHba p.esxi_hostname]
    let ds? := findDatastore w p.datastore_name
    match p.dsState with
    | .present => mountSanDatastoreHost p w esxi ds? calls0
    | .absent => umountSanDatastoreHost p w ds? calls0

/-- The create calls of a trace. -/
def createCalls (cs : List Call) : List Call :=
  cs.filter (fun c => match c with | .createDatastore _ _ => true | _ => false)

/-- The expand calls of a trace. -/
def expandCalls (cs : List Call) : List Call :=
  cs.filter (fun c => match c with | .expandDatastore _ _ => true | _ => false)

/-- The remove calls of a trace. -/
def removeCalls (cs : List Call) : List Call :=
  cs.filter (fun c => match c with | .removeDatastore _ _ => true | _ => false)

/-! ## The read-only facts module (`vmware_datastore_san_facts.py`) -/

/-- Parameters of `vmware_datastore_san_facts`: both optional. -/
structure FactsParams where
  datastore_name : Option String := none
  esxi_hostname : Option String := none
deriving Repr, DecidableEq

/-- One record built by `VMwareDatastore.read_datastore`. -/
structure DsFacts where
  name : String
  maintenanceMode : String
  url : String
  datastore_cluster : String
  vmfs_type : String
  wwn : List String
deriving Repr, DecidableEq

/-- Result of the facts module: `exit_json(changed=False, datastores=...)`
or `fail_json(msg=...)`. -/
inductive FactsResult where
  | ok (changed : Bool) (datastores : List DsFacts)
  | failed (msg : String)
deriving Repr, DecidableEq

/-- `VMwareDatastore.read_datastore`: summary fields, `'N/A'` overwritten
with the parent's name when the parent is a storage pod, the VMFS type,
and the trailing dot-separated segment of each extent's disk name. -/
def readDatastore (d : Datastore) : DsFacts :=
  { name := d.name
  , maintenanceMode := d.maintenanceMode
  , url := d.url
  , datastore_cluster := match d.parentPod with
      | some podName => podName
      | none => "N/A"
  , vmfs_type := d.vmfsType
  , wwn := d.extents.map (fun x => pyLastDotSeg x.diskName) }

/-- The datastores of a host (`host.datastore`): those whose mount list
contains the host's name. -/
def hostDatastores (w : World) (hostName : String) : List Datastore :=
  w.datastores.filter (fun d => d.hosts.contains hostName)

/-- `VMwareDatastore.gather_facts`: with a truthy datastore name, the named
datastore alone (a miss dereferences `None` and raises); with a truthy
host name, that host's datastores (a missing host dereferences `None` and
raises); with neither, every datastore in scope. -/
def gatherFacts (p : FactsParams) (w : World) : Except String (List Datastore) :=
  if pyTruthy p.datastore_name then
    match findDatastore w (pyStr p.datastore_name) with
    | none => .error "'NoneType' object has no attribute 'summary'"
    | some d => .ok [d]
  else if pyTruthy p.esxi_hostname then
    match findHost w (pyStr p.esxi_hostname) with
    | none => .error "'NoneType' object has no attribute 'datastore'"
    | some h => .ok (hostDatastores w h.name)
  else
    .ok w.datastores

/-- `main` of the facts module: gather, then
`exit_json(changed=False, datastores=...)`; any raised error is reported
via `fail_json`. -/
def factsMain (p : FactsParams) (w : World) : FactsResult :=
  match gatherFacts p w with
  | .error e => .failed e
  | .ok ds => .ok false (ds.map readDatastore)

/-- The record shape claimed by the spec for the read-only path, stated
from the spec's words: each record comes from an inventory datastore and
carries its name, maintenance mode, url, the parent storage-pod name (or
`'N/A'` when the datastore is in no datastore cluster), the VMFS type,
and as `wwn` the list of trailing dot-separated segments of the extents'
device names. -/
def FactsRecordSpec (w : World) (r : DsFacts) : Prop :=
  ∃ d ∈ w.datastores,
    r.name = d.name ∧
    r.maintenanceMode = d.maintenanceMode ∧
    r.url = d.url ∧
    r.datastore_cluster = (match d.parentPod with
                           | some podName => podName
                           | none => "N/A") ∧
    r.vmfs_type = d.vmfsType ∧
    r.wwn = d.extents.map (fun x => pyLastDotSeg x.diskName)

instance (w : World) (r : DsFacts) : Decidable (FactsRecordSpec w r) := by
  unfold FactsRecordSpec
  infer_instance

/-! ## Helper lemmas -/

/-- Host resolution only reads the host list. -/
theorem findHost_congr {w w' : World} (n : String) (h : w'.hosts = w.hosts) :
    findHost w' n = findHost w n := by
  unfold findHost
  rw [h]

/-- The expand branch does not touch the host list. -/
theorem mountExpand_world_hosts (p : ModuleParams) (w : World) (d : Datastore)
    (dev : String) (cs : List Call) :
    (mountExpand p w d dev cs).world.hosts = w.hosts := by
  unfold mountExpand
  repeat' split
  all_goals simp [applyExpand]

/-- The create branch does not touch the host list. -/
theorem mountCreate_world_hosts (p : ModuleParams) (w : World) (esxi : Host)
    (cs : List Call) :
    (mountCreate p w esxi cs).world.hosts = w.hosts := by
  unfold mountCreate
  dsimp only
  split
  · rfl
  · split
    · split
      · rfl
      · rfl
    · rfl

/-- The mount handler does not touch the host list. -/
theorem mountSan_world_hosts (p : ModuleParams) (w : World) (esxi : Host)
    (ds? : Option Datastore) (cs : List Call) :
    (mountSanDatastoreHost p w esxi ds? cs).world.hosts = w.hosts := by
  unfold mountSanDatastoreHost
  repeat' split
  all_goals first
    | rfl
    | exact mountCreate_world_hosts ..
    | exact mountExpand_world_hosts ..

/-- The unmount handler does not touch the host list. -/
theorem umountSan_world_hosts (p : ModuleParams) (w : World) (ds? : Option Datastore)
    (cs : List Call) :
    (umountSanDatastoreHost p w ds? cs).world.hosts = w.hosts := by
  unfold umountSanDatastoreHost umountFound
  repeat' split
  all_goals simp [removeDs]

/-- No world transition of the reconciler touches the host list. -/
theorem reconcile_world_hosts (p : ModuleParams) (w : World) :
    (reconcile p w).world.hosts = w.hosts := by
  unfold reconcile
  repeat' split
  all_goals first
    | rfl
    | exact mountSan_world_hosts ..
    | exact umountSan_world_hosts ..

/-- After erasing the datastore that carries a name, no datastore of a
name-deduplicated inventory carries that name. -/
theorem eraseP_name_not_found {n : String} :
    ∀ l : List Datastore, (l.map Datastore.name).Nodup →
      ∀ x ∈ l.eraseP (fun d => d.name == n), ¬ (x.name == n) = true
  | [], _, x, hx => by simp at hx
  | a :: t, hnd, x, hx => by
    rw [List.map_cons, List.nodup_cons] at hnd
    by_cases ha : (a.name == n) = true
    · rw [List.eraseP_cons_of_pos (p := fun d => d.name == n) (l := t) ha] at hx
      have han : a.name = n := beq_iff_eq.mp ha
      intro hxn
      have hxan : x.name = a.name := by rw [han]; exact beq_iff_eq.mp hxn
      exact hnd.1 (hxan ▸ List.mem_map_of_mem Datastore.name hx)
    · rw [List.eraseP_cons_of_neg (p := fun d => d.name == n) (l := t) (by simpa using ha)] at hx
      rcases List.mem_cons.mp hx with hxa | hxt
      · exact hxa ▸ ha
      · exact eraseP_name_not_found t hnd.2 x hxt

/-- Removing a datastore from a name-deduplicated inventory makes its name
unresolvable. -/
theorem findDatastore_removeDs (w : World) (n : String)
    (hwf : (w.datastores.map Datastore.name).Nodup) :
    findDatastore (removeDs w n) n = none := by
  unfold findDatastore removeDs
  exact List.find?_eq_none.mpr (eraseP_name_not_found w.datastores hwf)

/-- A freshly created datastore is found under the name it was created
with, when that name was previously unresolvable. -/
theorem findDatastore_applyCreate (w : World) (hn : String) (spec : VmfsCreateSpec)
    (hds : findDatastore w spec.volumeName = none) :
    findDatastore (applyCreate w hn spec) spec.volumeName =
      some { name := spec.volumeName
           , uuid := spec.resultUuid
           , extents := [{ diskName := spec.diskName }]
           , hosts := [hn]
           , expandOptions := spec.resultExpandOptions } := by
  unfold findDatastore applyCreate at *
  rw [List.find?_append, hds]
  simp

/-- `find?` by name commutes with a name-preserving map. -/
theorem find?_map_name (f : Datastore → Datastore) (hf : ∀ d, (f d).name = d.name)
    (n : String) :
    ∀ l : List Datastore,
      (l.map f).find? (fun d => d.name == n) = (l.find? (fun d => d.name == n)).map f
  | [] => rfl
  | a :: t => by
    simp only [List.map_cons, List.find?_cons, hf a]
    by_cases ha : (a.name == n) = true
    · simp [ha]
    · simp only [Bool.not_eq_true] at ha
      simp [ha, find?_map_name f hf n t]

/-- Expanding a datastore is observed by a later lookup as erasing the
applied option from its expand options. -/
theorem findDatastore_applyExpand (w : World) (n : String) (o : VmfsExpandOption)
    (d : Datastore) (hds : findDatastore w n = some d) :
    findDatastore (applyExpand w n o) n =
      some { d with expandOptions := d.expandOptions.erase o } := by
  have hds' : w.datastores.find? (fun x => x.name == n) = some d := hds
  have hname : (d.name == n) = true := by simpa using List.find?_some hds'
  have hdn : d.name = n := beq_iff_eq.mp hname
  show (applyExpand w n o).datastores.find? (fun x => x.name == n) = _
  unfold applyExpand
  dsimp only
  rw [find?_map_name _ (fun x => by by_cases h : (x.name == n) = true <;> simp [h])
    n w.datastores, hds']
  simp [hdn]

/-- Every call of the sibling-rescan burst is a rescan call. -/
theorem mem_rescanOtherCalls (w : World) (esxi : Host) (n : String) (c : Call)
    (hc : c ∈ rescanOtherCalls w esxi n) :
    (∃ h, c = Call.rescanHba h) ∨ (∃ h, c = Call.rescanVmfs h) := by
  unfold rescanOtherCalls at hc
  rcases List.mem_flatMap.mp hc with ⟨a, _, hca⟩
  by_cases hn : (a.name != n) = true
  · rw [if_pos hn] at hca
    rcases List.mem_cons.mp hca with h1 | h2
    · exact Or.inl ⟨a.name, h1⟩
    · simp only [List.mem_singleton] at h2
      exact Or.inr ⟨a.name, h2⟩
  · rw [if_neg hn] at hca
    simp at hca

/-! ## Branch characterizations of `reconcile` -/

/-- The device path the create branch queries. -/
def dsPathOf (p : ModuleParams) : String :=
  "/vmfs/devices/disks/naa." ++ pyStr (effDevice p)

/-- The create spec actually submitted: the first option's spec with the
volume name overwritten. -/
def createdSpec (p : ModuleParams) (o : VmfsCreateOption) : VmfsCreateSpec :=
  { o.spec with volumeName := p.datastore_name }

/-- The world after the create branch has created its datastore. -/
def createdWorld (p : ModuleParams) (w : World) (o : VmfsCreateOption) : World :=
  applyCreate w p.esxi_hostname (createdSpec p o)

/-- `reconcile` with `state=present` and no datastore found runs the
create branch on the initial rescan trace. -/
theorem reconcile_present_none (p : ModuleParams) (w : World) (esxi : Host)
    (hstate : p.dsState = .present)
    (hhost : findHost w p.esxi_hostname = some esxi)
    (hds : findDatastore w p.datastore_name = none) :
    reconcile p w = mountCreate p w esxi [Call.rescanHba p.esxi_hostname] := by
  simp [reconcile, hhost, hstate, hds, mountSanDatastoreHost]

/-- `reconcile` with `state=present` and a datastore found dispatches on
the device membership test. -/
theorem reconcile_present_some (p : ModuleParams) (w : World) (esxi : Host) (d : Datastore)
    (hstate : p.dsState = .present)
    (hhost : findHost w p.esxi_hostname = some esxi)
    (hds : findDatastore w p.datastore_name = some d) :
    reconcile p w =
      mountSanDatastoreHost p w esxi (some d) [Call.rescanHba p.esxi_hostname] := by
  simp [reconcile, hhost, hstate, hds]

/-- `reconcile` with `state=absent` and no datastore found exits unchanged
after the initial rescan. -/
theorem reconcile_absent_none (p : ModuleParams) (w : World) (esxi : Host)
    (hstate : p.dsState = .absent)
    (hhost : findHost w p.esxi_hostname = some esxi)
    (hds : findDatastore w p.datastore_name = none) :
    reconcile p w =
      { outcome := .exited false none, calls := [Call.rescanHba p.esxi_hostname], world := w } := by
  simp [reconcile, hhost, hstate, hds, umountSanDatastoreHost]

/-- `reconcile` with `state=absent` and a datastore found runs the
unmount-and-remove branch. -/
theorem reconcile_absent_some (p : ModuleParams) (w : World) (esxi : Host) (d : Datastore)
    (hstate : p.dsState = .absent)
    (hhost : findHost w p.esxi_hostname = some esxi)
    (hds : findDatastore w p.datastore_name = some d) :
    reconcile p w = umountFound p w d [Call.rescanHba p.esxi_hostname] := by
  simp [reconcile, hhost, hstate, hds, umountSanDatastoreHost]

/-- Create branch, no create options: the `IndexError` is reported with
the mount-error prefix. -/
theorem mountCreate_no_options (p : ModuleParams) (w : World) (esxi : Host) (cs : List Call)
    (hopt : lookupCreateOptions w (dsPathOf p) = []) :
    mountCreate p w esxi cs =
      { outcome := .failed (mountErr p ++ " : list index out of range")
      , calls := cs ++ [Call.queryCreateOptions p.esxi_hostname (dsPathOf p)]
      , world := w } := by
  have hopt' : lookupCreateOptions w ("/vmfs/devices/disks/naa." ++ pyStr (effDevice p)) = [] :=
    hopt
  unfold mountCreate
  dsimp only
  rw [hopt']
  simp [dsPathOf]

/-- Create branch, options found, no datastore-cluster requested. -/
theorem mountCreate_no_cluster (p : ModuleParams) (w : World) (esxi : Host) (cs : List Call)
    (o : VmfsCreateOption) (rest : List VmfsCreateOption)
    (hopt : lookupCreateOptions w (dsPathOf p) = o :: rest)
    (hc : pyTruthy p.datastore_cluster_name = false) :
    mountCreate p w esxi cs =
      { outcome := .exited true
          (some ("Datastore " ++ p.datastore_name ++ " on host " ++ p.esxi_hostname))
      , calls := cs ++ Call.queryCreateOptions p.esxi_hostname (dsPathOf p)
          :: Call.createDatastore p.esxi_hostname (createdSpec p o)
          :: rescanOtherCalls (createdWorld p w o) esxi p.esxi_hostname
      , world := createdWorld p w o } := by
  have hopt' : lookupCreateOptions w ("/vmfs/devices/disks/naa." ++ pyStr (effDevice p)) =
      o :: rest := hopt
  unfold mountCreate createdWorld createdSpec
  dsimp only
  rw [hopt']
  dsimp only
  rw [if_neg (by simp [hc])]
  simp [dsPathOf]

/-- Create branch, options found, datastore-cluster requested and folder
resolution succeeding: the move is issued before the sibling rescans. -/
theorem mountCreate_cluster_ok (p : ModuleParams) (w : World) (esxi : Host) (cs : List Call)
    (o : VmfsCreateOption) (rest : List VmfsCreateOption) (mv : List Call) (msg : String)
    (hopt : lookupCreateOptions w (dsPathOf p) = o :: rest)
    (hc : pyTruthy p.datastore_cluster_name = true)
    (hmv : clusterMove p (createdWorld p w o) (pyStr p.datastore_cluster_name) =
      some (mv, msg)) :
    mountCreate p w esxi cs =
      { outcome := .exited true (some msg)
      , calls := cs ++ Call.queryCreateOptions p.esxi_hostname (dsPathOf p)
          :: Call.createDatastore p.esxi_hostname (createdSpec p o)
          :: (mv ++ rescanOtherCalls (createdWorld p w o) esxi p.esxi_hostname)
      , world := createdWorld p w o } := by
  have hopt' : lookupCreateOptions w ("/vmfs/devices/disks/naa." ++ pyStr (effDevice p)) =
      o :: rest := hopt
  have hmv' : clusterMove p
      (applyCreate w p.esxi_hostname
        { volumeName := p.datastore_name, diskName := o.spec.diskName
        , resultUuid := o.spec.resultUuid, resultExpandOptions := o.spec.resultExpandOptions })
      (pyStr p.datastore_cluster_name) = some (mv, msg) := hmv
  unfold mountCreate createdWorld createdSpec
  dsimp only
  rw [hopt']
  dsimp only
  rw [if_pos hc, hmv']
  simp [dsPathOf]

/-- Create branch, options found, datastore-cluster requested but folder
resolution failing: the `IndexError` is reported after the create call. -/
theorem mountCreate_cluster_fail (p : ModuleParams) (w : World) (esxi : Host) (cs : List Call)
    (o : VmfsCreateOption) (rest : List VmfsCreateOption)
    (hopt : lookupCreateOptions w (dsPathOf p) = o :: rest)
    (hc : pyTruthy p.datastore_cluster_name = true)
    (hmv : clusterMove p (createdWorld p w o) (pyStr p.datastore_cluster_name) = none) :
    mountCreate p w esxi cs =
      { outcome := .failed (mountErr p ++ " : list index out of range")
      , calls := cs ++ [Call.queryCreateOptions p.esxi_hostname (dsPathOf p),
          Call.createDatastore p.esxi_hostname (createdSpec p o)]
      , world := createdWorld p w o } := by
  have hopt' : lookupCreateOptions w ("/vmfs/devices/disks/naa." ++ pyStr (effDevice p)) =
      o :: rest := hopt
  have hmv' : clusterMove p
      (applyCreate w p.esxi_hostname
        { volumeName := p.datastore_name, diskName := o.spec.diskName
        , resultUuid := o.spec.resultUuid, resultExpandOptions := o.spec.resultExpandOptions })
      (pyStr p.datastore_cluster_name) = none := hmv
  unfold mountCreate createdWorld createdSpec
  dsimp only
  rw [hopt']
  dsimp only
  rw [if_pos hc, hmv']
  simp [dsPathOf]

/-- Expand branch with an empty expand-options result: fall through to the
unchanged exit. -/
theorem mountExpand_no_options (p : ModuleParams) (w : World) (d : Datastore) (dev : String)
    (cs : List Call) (hopts : d.expandOptions = []) :
    mountExpand p w d dev cs =
      { outcome := .exited false none
      , calls := cs ++ [Call.queryExpandOptions d.name], world := w } := by
  unfold mountExpand
  rw [hopts]
  rfl

/-- Expand branch with options but no option matching the device: the
`IndexError` is reported with the mount-error prefix. -/
theorem mountExpand_no_match (p : ModuleParams) (w : World) (d : Datastore) (dev : String)
    (cs : List Call) (hne : d.expandOptions ≠ [])
    (hmatch : d.expandOptions.filter
      (fun x => pySubstr (pyLower dev) x.spec.extent.diskName) = []) :
    mountExpand p w d dev cs =
      { outcome := .failed (mountErr p ++ " : list index out of range")
      , calls := cs ++ [Call.queryExpandOptions d.name], world := w } := by
  unfold mountExpand
  rw [if_pos (List.length_pos.mpr hne), hmatch]

/-- Expand branch with a first matching option: one expand call with that
option's spec, `changed=true`, and the option consumed in the successor
world. -/
theorem mountExpand_match (p : ModuleParams) (w : World) (d : Datastore) (dev : String)
    (cs : List Call) (m : VmfsExpandOption) (rest : List VmfsExpandOption)
    (hmatch : d.expandOptions.filter
      (fun x => pySubstr (pyLower dev) x.spec.extent.diskName) = m :: rest) :
    mountExpand p w d dev cs =
      { outcome := .exited true (some ("Expanded storage on datastore " ++ p.datastore_name))
      , calls := cs ++ [Call.queryExpandOptions d.name, Call.expandDatastore d.name m.spec]
      , world := applyExpand w d.name m } := by
  have hne : d.expandOptions ≠ [] := by
    intro hnil
    rw [hnil] at hmatch
    exact absurd hmatch (by simp)
  unfold mountExpand
  rw [if_pos (List.length_pos.mpr hne), hmatch]
  simp

/-- With no faulting unmount, the removal loop unmounts on every mounting
host in order. -/
theorem unmountCallsIssued_no_fault (w : World) (uuid : String) :
    ∀ hs : List String, firstUnmountFault w uuid hs = none →
      unmountCallsIssued w uuid hs = hs.map (fun h => Call.unmountVmfs h uuid)
  | [], _ => rfl
  | h :: hs, hf => by
    unfold firstUnmountFault at hf
    unfold unmountCallsIssued
    cases hl : lookupUnmountFault w h uuid with
    | some m => rw [hl] at hf; exact absurd hf (by simp)
    | none =>
      rw [hl] at hf
      rw [List.map_cons, unmountCallsIssued_no_fault w uuid hs hf]

/-- Unmount branch with no faulting host: all unmounts, then the removal,
then the changed exit. -/
theorem umountFound_ok (p : ModuleParams) (w : World) (d : Datastore) (cs : List Call)
    (hf : firstUnmountFault w d.uuid d.hosts = none) :
    umountFound p w d cs =
      { outcome := .exited true
          (some ("Datastore " ++ p.datastore_name ++ " on host " ++ p.esxi_hostname))
      , calls := cs ++ d.hosts.map (fun h => Call.unmountVmfs h d.uuid)
          ++ [Call.removeDatastore p.esxi_hostname d.name]
      , world := removeDs w d.name } := by
  unfold umountFound
  rw [hf, unmountCallsIssued_no_fault w d.uuid d.hosts hf]

/-- Unmount branch with a faulting host: the loop stops, no removal is
issued, and the umount error message carries the fault text. -/
theorem umountFound_fault (p : ModuleParams) (w : World) (d : Datastore) (cs : List Call)
    (hFail : String) (msg : String)
    (hf : firstUnmountFault w d.uuid d.hosts = some (hFail, msg)) :
    umountFound p w d cs =
      { outcome := .failed (umountErr p ++ ": " ++ msg)
      , calls := cs ++ unmountCallsIssued w d.uuid d.hosts
      , world := w } := by
  unfold umountFound
  rw [hf]

/-! ## Claim theorems -/

/-- C8: when the named ESXi host cannot be resolved to a live handle, the
reconciliation fails with a message naming that host, and no operation at
all (in particular no mutating one) has been issued. -/
theorem C8_host_resolution_is_fatal (p : ModuleParams) (w : World)
    (h : findHost w p.esxi_hostname = none) :
    (reconcile p w).calls = [] ∧
    ∃ a b, (reconcile p w).outcome = .failed (a ++ p.esxi_hostname ++ b) := by
  unfold reconcile
  rw [h]
  exact ⟨rfl, "Failed to find ESXi hostname ", " ", rfl⟩

/-- Parameters used by the C8 witness. -/
def C8exParams : ModuleParams :=
  { datastore_name := "SAN_DS01", esxi_hostname := "esx-a.lab" }

/-- World used by the C8 witness: no host resolves. -/
def C8exWorld : World := { hosts := [], datastores := [], folders := [] }

/-- Witness for C8 at a concrete world with no matching host. -/
theorem C8_witness :
    findHost C8exWorld C8exParams.esxi_hostname = none ∧
    ((reconcile C8exParams C8exWorld).calls = [] ∧
      ∃ a b, (reconcile C8exParams C8exWorld).outcome =
        .failed (a ++ C8exParams.esxi_hostname ++ b)) :=
  ⟨by decide, C8_host_resolution_is_fatal C8exParams C8exWorld (by decide)⟩

/-- C7: `state=absent` with no datastore of the target name issues no
create, expand, or remove call and reports `changed=false`. -/
theorem C7_absent_absent_noop (p : ModuleParams) (w : World) (esxi : Host)
    (hstate : p.dsState = .absent)
    (hhost : findHost w p.esxi_hostname = some esxi)
    (hds : findDatastore w p.datastore_name = none) :
    (reconcile p w).outcome = .exited false none ∧
    createCalls (reconcile p w).calls = [] ∧
    expandCalls (reconcile p w).calls = [] ∧
    removeCalls (reconcile p w).calls = [] := by
  simp [reconcile, hhost, hstate, hds, umountSanDatastoreHost,
    createCalls, expandCalls, removeCalls]

/-- Parameters used by the C7 witness. -/
def C7exParams : ModuleParams :=
  { datastore_name := "SAN_DS01", esxi_hostname := "esx-a", dsState := .absent }

/-- World used by the C7 witness: the host exists, the datastore does not. -/
def C7exWorld : World :=
  { hosts := [{ name := "esx-a", clusterName := "cl1" }], datastores := [], folders := [] }

/-- Witness for C7 at a concrete already-absent world. -/
theorem C7_witness :
    (C7exParams.dsState = .absent ∧
      findHost C7exWorld C7exParams.esxi_hostname = some { name := "esx-a", clusterName := "cl1" } ∧
      findDatastore C7exWorld C7exParams.datastore_name = none) ∧
    ((reconcile C7exParams C7exWorld).outcome = .exited false none ∧
      createCalls (reconcile C7exParams C7exWorld).calls = [] ∧
      expandCalls (reconcile C7exParams C7exWorld).calls = [] ∧
      removeCalls (reconcile C7exParams C7exWorld).calls = []) :=
  ⟨by decide, C7_absent_absent_noop C7exParams C7exWorld
    { name := "esx-a", clusterName := "cl1" } (by decide) (by decide) (by decide)⟩

/-- C10: with `state=present`, no matching datastore, and
`volume_device_name` omitted, the reconciler does not reject the missing
parameter: it queries create options for the path
`/vmfs/devices/disks/naa.None` (string-converting the absent value), and
when that query yields nothing the failure surfaces as a remote-operation
failure carrying the mount-error prefix, not as a parameter-validation
error. -/
theorem C10_missing_device_reaches_query (p : ModuleParams) (w : World) (esxi : Host)
    (hstate : p.dsState = .present)
    (hdev : p.volume_device_name = none)
    (hhost : findHost w p.esxi_hostname = some esxi)
    (hds : findDatastore w p.datastore_name = none) :
    Call.queryCreateOptions p.esxi_hostname "/vmfs/devices/disks/naa.None"
        ∈ (reconcile p w).calls ∧
    (lookupCreateOptions w "/vmfs/devices/disks/naa.None" = [] →
      (reconcile p w).outcome = .failed (mountErr p ++ " : list index out of range")) := by
  have hpath : "/vmfs/devices/disks/naa." ++ pyStr (effDevice p) =
      "/vmfs/devices/disks/naa.None" := by
    rw [effDevice, hdev]
    rfl
  simp only [reconcile, hhost, hstate, hds, mountSanDatastoreHost, mountCreate, hpath]
  cases hopt : lookupCreateOptions w "/vmfs/devices/disks/naa.None" with
  | nil =>
    simp
  | cons o rest =>
    dsimp only
    constructor
    · split
      · split
        · simp
        · simp
      · simp
    · intro hnil
      exact absurd hnil (by simp)

/-- Parameters used by the C10 witness: no `volume_device_name`. -/
def C10exParams : ModuleParams :=
  { datastore_name := "SAN_DS01", esxi_hostname := "esx-a" }

/-- World used by the C10 witness: host present, datastore absent, no
create options for the degenerate path. -/
def C10exWorld : World :=
  { hosts := [{ name := "esx-a", clusterName := "cl1" }], datastores := [], folders := [] }

/-- Witness for C10 at a concrete world. -/
theorem C10_witness :
    (C10exParams.dsState = .present ∧ C10exParams.volume_device_name = none ∧
      findHost C10exWorld C10exParams.esxi_hostname = some { name := "esx-a", clusterName := "cl1" } ∧
      findDatastore C10exWorld C10exParams.datastore_name = none) ∧
    (Call.queryCreateOptions C10exParams.esxi_hostname "/vmfs/devices/disks/naa.None"
        ∈ (reconcile C10exParams C10exWorld).calls ∧
      (lookupCreateOptions C10exWorld "/vmfs/devices/disks/naa.None" = [] →
        (reconcile C10exParams C10exWorld).outcome =
          .failed (mountErr C10exParams ++ " : list index out of range"))) :=
  ⟨by decide, C10_missing_device_reaches_query C10exParams C10exWorld
    { name := "esx-a", clusterName := "cl1" } (by decide) (by decide) (by decide) (by decide)⟩

/-- Parameters shared by the expand-branch counterexamples: `present`,
device `D1` (lower-cased to `d1` on init). -/
def expParams : ModuleParams :=
  { datastore_name := "DS", esxi_hostname := "H1", volume_device_name := some "D1"
  , dsState := .present }

/-- The expand option whose extent sits on device `d1`. -/
def optD1 : VmfsExpandOption := { spec := { extent := { diskName := "naa.d1" } } }

/-- An expand option for an unrelated device `e5`. -/
def optE5 : VmfsExpandOption := { spec := { extent := { diskName := "naa.e5" } } }

/-- Datastore whose extent set already contains device `d1` and for which
the endpoint reports expand options on `d1` and on `e5`. -/
def expDs : Datastore :=
  { name := "DS", uuid := "u1", extents := [{ diskName := "naa.d1" }]
  , hosts := ["H1"], expandOptions := [optD1, optE5] }

/-- World shared by the expand-branch counterexamples: two hosts in the
same cluster, one datastore already backed by `d1`. -/
def expWorld : World :=
  { hosts := [{ name := "H1", clusterName := "C" }, { name := "H2", clusterName := "C" }]
  , datastores := [expDs]
  , folders := [] }

/-- C1 counterexample: with `state=present`, the datastore existing, and
the lower-cased device identifier `d1` already among the extent
identifiers, the code does not no-op: it issues an expand call and
reports `changed=true`, refuting the claimed `changed=false` / no-expand
behaviour. -/
theorem C1_counterexample :
    effDevice expParams = some "d1" ∧
    findDatastore expWorld expParams.datastore_name = some expDs ∧
    "d1" ∈ existingWwns expDs ∧
    (reconcile expParams expWorld).outcome =
      .exited true (some "Expanded storage on datastore DS") ∧
    expandCalls (reconcile expParams expWorld).calls =
      [Call.expandDatastore "DS" optD1.spec] := by
  decide

/-- C1 as amended: with `state=present`, the datastore existing, the
lower-cased device identifier among the extent identifiers, and the
expand-options query returning an empty list, the reconciler issues no
create and no expand call and reports `changed=false`. -/
theorem C1_in_extents_no_options_noop (p : ModuleParams) (w : World) (esxi : Host)
    (d : Datastore) (dev : String)
    (hstate : p.dsState = .present)
    (hhost : findHost w p.esxi_hostname = some esxi)
    (hds : findDatastore w p.datastore_name = some d)
    (hdev : effDevice p = some dev)
    (hin : dev ∈ existingWwns d)
    (hopts : d.expandOptions = []) :
    (reconcile p w).outcome = .exited false none ∧
    createCalls (reconcile p w).calls = [] ∧
    expandCalls (reconcile p w).calls = [] := by
  simp [reconcile, hhost, hstate, hds, mountSanDatastoreHost, hdev, hin,
    mountExpand, hopts, createCalls, expandCalls]

/-- Datastore for the C1 witness: device `d1` backs it and no expand
options remain. -/
def C1wDs : Datastore :=
  { name := "DS", uuid := "u1", extents := [{ diskName := "naa.d1" }]
  , hosts := ["H1"], expandOptions := [] }

/-- World for the C1 witness. -/
def C1wWorld : World :=
  { hosts := [{ name := "H1", clusterName := "C" }], datastores := [C1wDs], folders := [] }

/-- Witness for the amended C1 at a concrete converged world. -/
theorem C1_witness :
    (expParams.dsState = .present ∧
      findHost C1wWorld expParams.esxi_hostname = some { name := "H1", clusterName := "C" } ∧
      findDatastore C1wWorld expParams.datastore_name = some C1wDs ∧
      effDevice expParams = some "d1" ∧
      "d1" ∈ existingWwns C1wDs ∧ C1wDs.expandOptions = []) ∧
    ((reconcile expParams C1wWorld).outcome = .exited false none ∧
      createCalls (reconcile expParams C1wWorld).calls = [] ∧
      expandCalls (reconcile expParams C1wWorld).calls = []) :=
  ⟨by decide, C1_in_extents_no_options_noop expParams C1wWorld
    { name := "H1", clusterName := "C" } C1wDs "d1"
    (by decide) (by decide) (by decide) (by decide) (by decide) (by decide)⟩

/-- Datastore for the C2 counterexample: the target device is *not* among
its extents, but a matching expand option exists. -/
def C2exDs : Datastore :=
  { name := "DS", uuid := "u1", extents := [{ diskName := "naa.zz" }]
  , hosts := ["H1"], expandOptions := [optD1] }

/-- World for the C2 counterexample. -/
def C2exWorld : World :=
  { hosts := [{ name := "H1", clusterName := "C" }], datastores := [C2exDs], folders := [] }

/-- C2 counterexample: with the device identifier not among the extent
identifiers and a matching expand option available, the code issues no
expand call at all (the missing-device branch is an unimplemented stub)
and reports `changed=false`, refuting the claimed single expand call and
`changed=true`. -/
theorem C2_counterexample :
    effDevice expParams = some "d1" ∧
    findDatastore C2exWorld expParams.datastore_name = some C2exDs ∧
    "d1" ∉ existingWwns C2exDs ∧
    C2exDs.expandOptions.filter
      (fun x => pySubstr "d1" x.spec.extent.diskName) = [optD1] ∧
    (reconcile expParams C2exWorld).outcome = .exited false none ∧
    expandCalls (reconcile expParams C2exWorld).calls = [] := by
  decide

/-- C2 as amended: the expand path triggers when the device identifier
*is* among the extent identifiers: with `state=present`, the datastore
existing, the lower-cased device among the extents' trailing segments,
and the expand-options query returning at least one option whose extent
device name contains that identifier, the reconciler issues exactly one
expand call, with the first matching option's specification, and reports
`changed=true`. -/
theorem C2_in_extents_expand (p : ModuleParams) (w : World) (esxi : Host)
    (d : Datastore) (dev : String) (m : VmfsExpandOption) (rest : List VmfsExpandOption)
    (hstate : p.dsState = .present)
    (hhost : findHost w p.esxi_hostname = some esxi)
    (hds : findDatastore w p.datastore_name = some d)
    (hdev : effDevice p = some dev)
    (hin : dev ∈ existingWwns d)
    (hmatch : d.expandOptions.filter
      (fun x => pySubstr (pyLower dev) x.spec.extent.diskName) = m :: rest) :
    expandCalls (reconcile p w).calls = [Call.expandDatastore d.name m.spec] ∧
    createCalls (reconcile p w).calls = [] ∧
    (reconcile p w).outcome =
      .exited true (some ("Expanded storage on datastore " ++ p.datastore_name)) := by
  have hne : d.expandOptions ≠ [] := by
    intro hnil
    rw [hnil] at hmatch
    exact absurd hmatch (by simp)
  have hlen : 0 < d.expandOptions.length := List.length_pos.mpr hne
  simp [reconcile, hhost, hstate, hds, mountSanDatastoreHost, hdev, hin,
    mountExpand, hlen, hmatch, createCalls, expandCalls]

/-- Witness for the amended C2 at the concrete expand world: the single
issued expand call uses the first matching option, `optD1`. -/
theorem C2_witness :
    (expParams.dsState = .present ∧
      findHost expWorld expParams.esxi_hostname = some { name := "H1", clusterName := "C" } ∧
      findDatastore expWorld expParams.datastore_name = some expDs ∧
      effDevice expParams = some "d1" ∧
      "d1" ∈ existingWwns expDs ∧
      expDs.expandOptions.filter
        (fun x => pySubstr (pyLower "d1") x.spec.extent.diskName) = [optD1]) ∧
    (expandCalls (reconcile expParams expWorld).calls =
        [Call.expandDatastore expDs.name optD1.spec] ∧
      createCalls (reconcile expParams expWorld).calls = [] ∧
      (reconcile expParams expWorld).outcome =
        .exited true (some ("Expanded storage on datastore " ++ expParams.datastore_name))) :=
  ⟨by decide, C2_in_extents_expand expParams expWorld
    { name := "H1", clusterName := "C" } expDs "d1" optD1 []
    (by decide) (by decide) (by decide) (by decide) (by decide) (by decide)⟩

/-- Both rescans for a sibling cluster host appear in the sibling-rescan
burst. -/
theorem rescanOther_mem (w : World) (esxi : Host) (n : String) (h2 : Host)
    (hmem : h2 ∈ w.hosts) (hsame : h2.clusterName = esxi.clusterName) (hne : h2.name ≠ n) :
    Call.rescanHba h2.name ∈ rescanOtherCalls w esxi n ∧
    Call.rescanVmfs h2.name ∈ rescanOtherCalls w esxi n := by
  unfold rescanOtherCalls
  have hf : h2 ∈ w.hosts.filter (fun h => h.clusterName == esxi.clusterName) :=
    List.mem_filter.mpr ⟨hmem, by simp [hsame]⟩
  have hbne : (h2.name != n) = true := by simp [bne_iff_ne, hne]
  constructor
  · exact List.mem_flatMap.mpr ⟨h2, hf, by rw [if_pos hbne]; simp⟩
  · exact List.mem_flatMap.mpr ⟨h2, hf, by rw [if_pos hbne]; simp⟩

/-- The sibling-rescan burst contains no create call. -/
theorem createCalls_rescanOther (w : World) (esxi : Host) (n : String) :
    createCalls (rescanOtherCalls w esxi n) = [] := by
  unfold createCalls
  rw [List.filter_eq_nil_iff]
  intro c hc
  rcases mem_rescanOtherCalls w esxi n c hc with ⟨h, rfl⟩ | ⟨h, rfl⟩ <;> simp

/-- The sibling-rescan burst contains no expand call. -/
theorem expandCalls_rescanOther (w : World) (esxi : Host) (n : String) :
    expandCalls (rescanOtherCalls w esxi n) = [] := by
  unfold expandCalls
  rw [List.filter_eq_nil_iff]
  intro c hc
  rcases mem_rescanOtherCalls w esxi n c hc with ⟨h, rfl⟩ | ⟨h, rfl⟩ <;> simp

/-- The removal loop issues only unmount calls. -/
theorem removeCalls_unmountCallsIssued (w : World) (uuid : String) :
    ∀ hs : List String, removeCalls (unmountCallsIssued w uuid hs) = []
  | [] => rfl
  | h :: hs => by
    unfold unmountCallsIssued
    cases lookupUnmountFault w h uuid with
    | some m => rfl
    | none =>
      show removeCalls (Call.unmountVmfs h uuid :: unmountCallsIssued w uuid hs) = []
      simpa [removeCalls] using removeCalls_unmountCallsIssued w uuid hs

/-- A successful folder move consists of exactly the move of the new
datastore into the cluster folder. -/
theorem clusterMove_shape (p : ModuleParams) (w : World) (c : String) (mv : List Call)
    (msg : String) (h : clusterMove p w c = some (mv, msg)) :
    mv = [Call.moveIntoFolder c p.datastore_name] := by
  unfold clusterMove at h
  cases hf : w.folders.find? (fun f => f.name == "datastore") with
  | none => rw [hf] at h; exact absurd h (by simp)
  | some dsf =>
    rw [hf] at h
    dsimp only at h
    by_cases h1 : dsf.childEntities.contains p.datastore_name = true
    · rw [if_pos h1] at h
      by_cases h2 : dsf.childEntities.contains c = true
      · rw [if_pos h2] at h
        simp only [Option.some.injEq, Prod.mk.injEq] at h
        exact h.1.symm
      · rw [if_neg h2] at h
        exact absurd h (by simp)
    · rw [if_neg h1] at h
      exact absurd h (by simp)

/-- C4 counterexample: a successful expand (device already backing the
datastore, matching option available) in a cluster with a sibling host
`H2` issues no HBA rescan and no VMFS rescan to `H2`: sibling rescans
only follow creates, not expands. -/
theorem C4_counterexample :
    (reconcile expParams expWorld).outcome =
      .exited true (some "Expanded storage on datastore DS") ∧
    expandCalls (reconcile expParams expWorld).calls =
      [Call.expandDatastore "DS" optD1.spec] ∧
    ({ name := "H2", clusterName := "C" } : Host) ∈ expWorld.hosts ∧
    Call.rescanHba "H2" ∉ (reconcile expParams expWorld).calls ∧
    Call.rescanVmfs "H2" ∉ (reconcile expParams expWorld).calls := by
  decide

/-- C4 as amended: after every successful create, every host of the
target host's parent cluster other than the target is issued an HBA
rescan and a VMFS rescan before the result is reported; a successful
expand issues no sibling rescans (see the counterexample). -/
theorem C4_create_rescans_siblings (p : ModuleParams) (w : World) (esxi : Host) (h2 : Host)
    (hstate : p.dsState = .present)
    (hhost : findHost w p.esxi_hostname = some esxi)
    (hds : findDatastore w p.datastore_name = none)
    (hsucc : ∃ c m, (reconcile p w).outcome = .exited c m)
    (hmem : h2 ∈ w.hosts) (hsame : h2.clusterName = esxi.clusterName)
    (hne : h2.name ≠ p.esxi_hostname) :
    createCalls (reconcile p w).calls ≠ [] ∧
    Call.rescanHba h2.name ∈ (reconcile p w).calls ∧
    Call.rescanVmfs h2.name ∈ (reconcile p w).calls := by
  rw [reconcile_present_none p w esxi hstate hhost hds] at hsucc ⊢
  rcases hsucc with ⟨c, m, hout⟩
  cases hopt : lookupCreateOptions w (dsPathOf p) with
  | nil =>
    rw [mountCreate_no_options p w esxi _ hopt] at hout
    exact absurd hout (by simp)
  | cons o rest =>
    have hrmem := rescanOther_mem (createdWorld p w o) esxi p.esxi_hostname h2 hmem hsame hne
    cases hcl : pyTruthy p.datastore_cluster_name with
    | false =>
      rw [mountCreate_no_cluster p w esxi _ o rest hopt hcl]
      refine ⟨List.ne_nil_of_mem
        (a := Call.createDatastore p.esxi_hostname (createdSpec p o)) ?_, ?_, ?_⟩
      · exact List.mem_filter.mpr ⟨by simp, rfl⟩
      · simp [hrmem.1]
      · simp [hrmem.2]
    | true =>
      cases hmv : clusterMove p (createdWorld p w o) (pyStr p.datastore_cluster_name) with
      | none =>
        rw [mountCreate_cluster_fail p w esxi _ o rest hopt hcl hmv] at hout
        exact absurd hout (by simp)
      | some pr =>
        obtain ⟨mv, msg⟩ := pr
        rw [mountCreate_cluster_ok p w esxi _ o rest mv msg hopt hcl hmv]
        refine ⟨List.ne_nil_of_mem
          (a := Call.createDatastore p.esxi_hostname (createdSpec p o)) ?_, ?_, ?_⟩
        · exact List.mem_filter.mpr ⟨by simp, rfl⟩
        · simp [hrmem.1]
        · simp [hrmem.2]

/-- Parameters of the creation scenario (spec test scenario): device in
mixed case, no datastore cluster. -/
def creParams : ModuleParams :=
  { datastore_name := "SAN_DS01", esxi_hostname := "H1"
  , volume_device_name := some "600508B400105E210000900000490000" }

/-- The single create option the endpoint reports for the normalized
device path of the creation scenario. -/
def creOpt : VmfsCreateOption :=
  { spec :=
      { volumeName := "placeholder"
      , diskName := "naa.600508b400105e210000900000490000"
      , resultUuid := "v1"
      , resultExpandOptions := [] } }

/-- World of the creation scenario: two hosts in one cluster, no
datastore, one create option for the device path. -/
def creWorld : World :=
  { hosts := [{ name := "H1", clusterName := "C" }, { name := "H2", clusterName := "C" }]
  , datastores := []
  , folders := []
  , createOptions :=
      [("/vmfs/devices/disks/naa.600508b400105e210000900000490000", [creOpt])] }

/-- Witness for the amended C4 at the concrete creation scenario: the
sibling host `H2` receives both rescans. -/
theorem C4_witness :
    (creParams.dsState = .present ∧
      findHost creWorld creParams.esxi_hostname = some { name := "H1", clusterName := "C" } ∧
      findDatastore creWorld creParams.datastore_name = none ∧
      (reconcile creParams creWorld).outcome =
        .exited true (some "Datastore SAN_DS01 on host H1") ∧
      ({ name := "H2", clusterName := "C" } : Host) ∈ creWorld.hosts ∧
      ({ name := "H2", clusterName := "C" } : Host).clusterName =
        ({ name := "H1", clusterName := "C" } : Host).clusterName ∧
      ({ name := "H2", clusterName := "C" } : Host).name ≠ creParams.esxi_hostname) ∧
    (createCalls (reconcile creParams creWorld).calls ≠ [] ∧
      Call.rescanHba ({ name := "H2", clusterName := "C" } : Host).name
        ∈ (reconcile creParams creWorld).calls ∧
      Call.rescanVmfs ({ name := "H2", clusterName := "C" } : Host).name
        ∈ (reconcile creParams creWorld).calls) :=
  ⟨by decide, C4_create_rescans_siblings creParams creWorld
    { name := "H1", clusterName := "C" } { name := "H2", clusterName := "C" }
    (by decide) (by decide) (by decide)
    ⟨true, some "Datastore SAN_DS01 on host H1", by decide⟩
    (by decide) (by decide) (by decide)⟩

/-- Datastore of the C5 counterexample: mounted on the target host `H1`
and on `H2`; `H2`'s unmount faults. -/
def C5exDs : Datastore :=
  { name := "SAN_DS01", uuid := "u1", extents := [{ diskName := "naa.d1" }]
  , hosts := ["H1", "H2"], expandOptions := [] }

/-- Parameters of the C5 counterexample. -/
def C5exParams : ModuleParams :=
  { datastore_name := "SAN_DS01", esxi_hostname := "H1", dsState := .absent }

/-- World of the C5 counterexample: `H2`'s unmount of the volume faults
with `resource in use`. -/
def C5exWorld : World :=
  { hosts := [{ name := "H1", clusterName := "C" }]
  , datastores := [C5exDs]
  , folders := []
  , unmountFaults := [("H2", "u1", "resource in use")] }

/-- C5 counterexample: when `H2`'s unmount fails, no removal call is made
(as claimed), but the reported failure does not name `H2`: the message
names the datastore and the *target* host and appends the fault text
only. -/
theorem C5_counterexample :
    findDatastore C5exWorld C5exParams.datastore_name = some C5exDs ∧
    firstUnmountFault C5exWorld C5exDs.uuid C5exDs.hosts = some ("H2", "resource in use") ∧
    removeCalls (reconcile C5exParams C5exWorld).calls = [] ∧
    (reconcile C5exParams C5exWorld).outcome =
      .failed "Cannot umount datastore SAN_DS01 from host H1: resource in use" ∧
    pySubstr "H2" "Cannot umount datastore SAN_DS01 from host H1: resource in use" = false := by
  decide

/-- C5 as amended: with `state=absent` and the datastore found, an
unmount identified by the datastore's VMFS uuid is issued to each
mounting host, all before the single removal call to the target host;
if the unmount on some host fails, no removal call is made and the
reported failure carries the umount-error prefix (naming the datastore
and the target host) and the fault text, not necessarily the failing
host's name. -/
theorem C5_unmounts_precede_remove (p : ModuleParams) (w : World) (esxi : Host) (d : Datastore)
    (hstate : p.dsState = .absent)
    (hhost : findHost w p.esxi_hostname = some esxi)
    (hds : findDatastore w p.datastore_name = some d) :
    (firstUnmountFault w d.uuid d.hosts = none →
      (reconcile p w).calls =
        [Call.rescanHba p.esxi_hostname] ++ d.hosts.map (fun h => Call.unmountVmfs h d.uuid)
          ++ [Call.removeDatastore p.esxi_hostname d.name] ∧
      (reconcile p w).outcome = .exited true
        (some ("Datastore " ++ p.datastore_name ++ " on host " ++ p.esxi_hostname))) ∧
    (∀ hF msg, firstUnmountFault w d.uuid d.hosts = some (hF, msg) →
      removeCalls (reconcile p w).calls = [] ∧
      (reconcile p w).outcome = .failed (umountErr p ++ ": " ++ msg)) := by
  rw [reconcile_absent_some p w esxi d hstate hhost hds]
  constructor
  · intro hf
    rw [umountFound_ok p w d _ hf]
    exact ⟨rfl, rfl⟩
  · intro hF msg hf
    rw [umountFound_fault p w d _ hF msg hf]
    constructor
    · simpa [removeCalls, List.filter_append] using
        removeCalls_unmountCallsIssued w d.uuid d.hosts
    · rfl

/-- Datastore of the C5 witness: mounted on two hosts, no unmount
faults. -/
def C5wDs : Datastore :=
  { name := "SAN_DS01", uuid := "u1", extents := [{ diskName := "naa.d1" }]
  , hosts := ["H1", "H2"], expandOptions := [] }

/-- World of the C5 witness. -/
def C5wWorld : World :=
  { hosts := [{ name := "H1", clusterName := "C" }]
  , datastores := [C5wDs]
  , folders := [] }

/-- Witness for the amended C5 at a concrete fault-free world: both
unmounts precede the removal. -/
theorem C5_witness :
    (C5exParams.dsState = .absent ∧
      findHost C5wWorld C5exParams.esxi_hostname = some { name := "H1", clusterName := "C" } ∧
      findDatastore C5wWorld C5exParams.datastore_name = some C5wDs) ∧
    ((firstUnmountFault C5wWorld C5wDs.uuid C5wDs.hosts = none →
      (reconcile C5exParams C5wWorld).calls =
        [Call.rescanHba C5exParams.esxi_hostname]
          ++ C5wDs.hosts.map (fun h => Call.unmountVmfs h C5wDs.uuid)
          ++ [Call.removeDatastore C5exParams.esxi_hostname C5wDs.name] ∧
      (reconcile C5exParams C5wWorld).outcome = .exited true
        (some ("Datastore " ++ C5exParams.datastore_name ++ " on host "
          ++ C5exParams.esxi_hostname))) ∧
    (∀ hF msg, firstUnmountFault C5wWorld C5wDs.uuid C5wDs.hosts = some (hF, msg) →
      removeCalls (reconcile C5exParams C5wWorld).calls = [] ∧
      (reconcile C5exParams C5wWorld).outcome =
        .failed (umountErr C5exParams ++ ": " ++ msg))) :=
  ⟨by decide, C5_unmounts_precede_remove C5exParams C5wWorld
    { name := "H1", clusterName := "C" } C5wDs (by decide) (by decide) (by decide)⟩

/-- `createCalls` distributes over append. -/
theorem createCalls_append (l1 l2 : List Call) :
    createCalls (l1 ++ l2) = createCalls l1 ++ createCalls l2 := by
  simp [createCalls]

/-- C6: with `state=present` and no datastore of the target name, the
device path is the fixed prefix `/vmfs/devices/disks/` joined with `naa.`
and the lower-cased `volume_device_name`; create options are queried for
that path, the first option's volume name is overwritten with the
desired datastore name, exactly one create call is issued with that
spec, and the run reports `changed=true`. -/
theorem C6_create_path_and_first_option (p : ModuleParams) (w : World) (esxi : Host)
    (v : String) (o : VmfsCreateOption) (rest : List VmfsCreateOption)
    (hstate : p.dsState = .present)
    (hdev : p.volume_device_name = some v)
    (hhost : findHost w p.esxi_hostname = some esxi)
    (hds : findDatastore w p.datastore_name = none)
    (hopt : lookupCreateOptions w ("/vmfs/devices/disks/" ++ "naa." ++ pyLower v) = o :: rest)
    (hsucc : ∃ c m, (reconcile p w).outcome = .exited c m) :
    dsPathOf p = "/vmfs/devices/disks/" ++ "naa." ++ pyLower v ∧
    Call.queryCreateOptions p.esxi_hostname ("/vmfs/devices/disks/" ++ "naa." ++ pyLower v)
      ∈ (reconcile p w).calls ∧
    createCalls (reconcile p w).calls =
      [Call.createDatastore p.esxi_hostname { o.spec with volumeName := p.datastore_name }] ∧
    ∃ msg, (reconcile p w).outcome = .exited true (some msg) := by
  have hpath : dsPathOf p = "/vmfs/devices/disks/" ++ "naa." ++ pyLower v := by
    unfold dsPathOf effDevice
    rw [hdev]
    rfl
  have hopt' : lookupCreateOptions w (dsPathOf p) = o :: rest := by rw [hpath]; exact hopt
  rw [← hpath]
  rw [reconcile_present_none p w esxi hstate hhost hds] at hsucc ⊢
  rcases hsucc with ⟨c, m, hout⟩
  refine ⟨rfl, ?_⟩
  cases hcl : pyTruthy p.datastore_cluster_name with
  | false =>
    rw [mountCreate_no_cluster p w esxi _ o rest hopt' hcl]
    refine ⟨by simp, ?_, ?_⟩
    · rw [show [Call.rescanHba p.esxi_hostname]
          ++ Call.queryCreateOptions p.esxi_hostname (dsPathOf p)
          :: Call.createDatastore p.esxi_hostname (createdSpec p o)
          :: rescanOtherCalls (createdWorld p w o) esxi p.esxi_hostname =
        [Call.rescanHba p.esxi_hostname,
          Call.queryCreateOptions p.esxi_hostname (dsPathOf p),
          Call.createDatastore p.esxi_hostname (createdSpec p o)]
          ++ rescanOtherCalls (createdWorld p w o) esxi p.esxi_hostname from rfl]
      rw [createCalls_append, createCalls_rescanOther]
      rfl
    · exact ⟨_, rfl⟩
  | true =>
    cases hmv : clusterMove p (createdWorld p w o) (pyStr p.datastore_cluster_name) with
    | none =>
      rw [mountCreate_cluster_fail p w esxi _ o rest hopt' hcl hmv] at hout
      exact absurd hout (by simp)
    | some pr =>
      obtain ⟨mv, msg⟩ := pr
      rw [clusterMove_shape p (createdWorld p w o) (pyStr p.datastore_cluster_name) mv msg hmv]
        at hmv
      rw [mountCreate_cluster_ok p w esxi _ o rest
        [Call.moveIntoFolder (pyStr p.datastore_cluster_name) p.datastore_name] msg hopt' hcl hmv]
      refine ⟨by simp, ?_, ?_⟩
      · rw [show [Call.rescanHba p.esxi_hostname]
            ++ Call.queryCreateOptions p.esxi_hostname (dsPathOf p)
            :: Call.createDatastore p.esxi_hostname (createdSpec p o)
            :: ([Call.moveIntoFolder (pyStr p.datastore_cluster_name) p.datastore_name]
              ++ rescanOtherCalls (createdWorld p w o) esxi p.esxi_hostname) =
          [Call.rescanHba p.esxi_hostname,
            Call.queryCreateOptions p.esxi_hostname (dsPathOf p),
            Call.createDatastore p.esxi_hostname (createdSpec p o),
            Call.moveIntoFolder (pyStr p.datastore_cluster_name) p.datastore_name]
            ++ rescanOtherCalls (createdWorld p w o) esxi p.esxi_hostname from rfl]
        rw [createCalls_append, createCalls_rescanOther]
        rfl
      · exact ⟨_, rfl⟩

/-- Witness for C6 at the creation scenario of the spec: device supplied
in mixed case, path normalized to
`/vmfs/devices/disks/naa.600508b400105e210000900000490000`. -/
theorem C6_witness :
    (creParams.dsState = .present ∧
      creParams.volume_device_name = some "600508B400105E210000900000490000" ∧
      findHost creWorld creParams.esxi_hostname = some { name := "H1", clusterName := "C" } ∧
      findDatastore creWorld creParams.datastore_name = none ∧
      lookupCreateOptions creWorld
        ("/vmfs/devices/disks/" ++ "naa." ++ pyLower "600508B400105E210000900000490000") =
        [creOpt]) ∧
    (dsPathOf creParams =
        "/vmfs/devices/disks/" ++ "naa." ++ pyLower "600508B400105E210000900000490000" ∧
      Call.queryCreateOptions creParams.esxi_hostname
        ("/vmfs/devices/disks/" ++ "naa." ++ pyLower "600508B400105E210000900000490000")
        ∈ (reconcile creParams creWorld).calls ∧
      createCalls (reconcile creParams creWorld).calls =
        [Call.createDatastore creParams.esxi_hostname
          { creOpt.spec with volumeName := creParams.datastore_name }] ∧
      ∃ msg, (reconcile creParams creWorld).outcome = .exited true (some msg)) :=
  ⟨by decide, C6_create_path_and_first_option creParams creWorld
    { name := "H1", clusterName := "C" } "600508B400105E210000900000490000" creOpt []
    (by decide) (by decide) (by decide) (by decide) (by decide)
    ⟨true, some "Datastore SAN_DS01 on host H1", by decide⟩⟩

/-- Every datastore the facts gatherer reads comes from the inventory. -/
theorem gatherFacts_subset (p : FactsParams) (w : World) (ds : List Datastore)
    (h : gatherFacts p w = .ok ds) : ∀ d ∈ ds, d ∈ w.datastores := by
  unfold gatherFacts at h
  by_cases h1 : pyTruthy p.datastore_name = true
  · rw [if_pos h1] at h
    cases hf : findDatastore w (pyStr p.datastore_name) with
    | none => rw [hf] at h; exact absurd h (by simp)
    | some d0 =>
      rw [hf] at h
      simp only [Except.ok.injEq] at h
      intro d hd
      rw [← h] at hd
      simp only [List.mem_singleton] at hd
      subst hd
      exact List.mem_of_find?_eq_some hf
  · rw [if_neg h1] at h
    by_cases h2 : pyTruthy p.esxi_hostname = true
    · rw [if_pos h2] at h
      cases hf : findHost w (pyStr p.esxi_hostname) with
      | none => rw [hf] at h; exact absurd h (by simp)
      | some host =>
        rw [hf] at h
        simp only [Except.ok.injEq] at h
        intro d hd
        rw [← h] at hd
        exact List.mem_of_mem_filter hd
    · rw [if_neg h2] at h
      simp only [Except.ok.injEq] at h
      intro d hd
      rw [← h] at hd
      exact hd

/-- C9: every successful run of the read-only facts path reports
`changed=false` and a list of records each drawn from an inventory
datastore and carrying its name, maintenance mode, url, parent
storage-pod name (`N/A` when the datastore is in no datastore cluster),
VMFS type, and as `wwn` the trailing dot-separated segments of the
extents' device names. -/
theorem C9_facts_output_shape (p : FactsParams) (w : World) (c : Bool) (l : List DsFacts)
    (h : factsMain p w = .ok c l) :
    c = false ∧ ∀ r ∈ l, FactsRecordSpec w r := by
  unfold factsMain at h
  cases hg : gatherFacts p w with
  | error e => rw [hg] at h; exact absurd h (by simp)
  | ok ds =>
    rw [hg] at h
    simp only [FactsResult.ok.injEq] at h
    obtain ⟨hc, hl⟩ := h
    refine ⟨hc.symm, ?_⟩
    intro r hr
    rw [← hl] at hr
    obtain ⟨d, hd, rfl⟩ := List.mem_map.mp hr
    exact ⟨d, gatherFacts_subset p w ds hg d hd, rfl, rfl, rfl, rfl, rfl, rfl⟩

/-- World of the C9 witness: one clustered and one unclustered datastore. -/
def C9exWorld : World :=
  { hosts := [{ name := "H1", clusterName := "C" }]
  , datastores :=
      [{ name := "DS1", uuid := "u1", extents := [{ diskName := "naa.d1" }]
       , hosts := ["H1"], expandOptions := []
       , maintenanceMode := "normal", url := "ds:///vmfs/volumes/u1/"
       , parentPod := some "POD1", vmfsType := "VMFS" },
       { name := "DS2", uuid := "u2"
       , extents := [{ diskName := "naa.d2" }, { diskName := "naa.d3" }]
       , hosts := ["H1"], expandOptions := []
       , maintenanceMode := "normal", url := "ds:///vmfs/volumes/u2/"
       , parentPod := none, vmfsType := "VMFS" }]
  , folders := [] }

/-- Witness for C9: the facts module over the concrete inventory, with
no name filter, reports `changed=false` and spec-shaped records. -/
theorem C9_witness :
    factsMain {} C9exWorld = .ok false (C9exWorld.datastores.map readDatastore) ∧
    (false = false ∧
      ∀ r ∈ C9exWorld.datastores.map readDatastore, FactsRecordSpec C9exWorld r) :=
  ⟨by decide, C9_facts_output_shape {} C9exWorld false
    (C9exWorld.datastores.map readDatastore) (by decide)⟩

/-- C3 counterexample: a first run that successfully expands (consuming
the applied expand option) leaves an option for another device in place;
the second run, with no intervening external change, re-enters the
expand branch, finds a non-empty option list with no option matching the
device, and fails on the out-of-range first-match index — it does not
report `changed=false`. -/
theorem C3_counterexample :
    (reconcile expParams expWorld).outcome =
      .exited true (some "Expanded storage on datastore DS") ∧
    (reconcile expParams (reconcile expParams expWorld).world).outcome =
      .failed "Cannot mount datastore DS on host H1 : list index out of range" := by
  decide

/-- A `present` run that finds the datastore and sees an empty
expand-options list (or never reaches the expand branch) exits
unchanged. -/
theorem present_found_no_options_unchanged (p : ModuleParams) (w : World) (esxi : Host)
    (d : Datastore)
    (hhost : findHost w p.esxi_hostname = some esxi)
    (hstate : p.dsState = .present)
    (hds : findDatastore w p.datastore_name = some d)
    (hopts : d.expandOptions = []) :
    (reconcile p w).outcome = .exited false none := by
  rw [reconcile_present_some p w esxi d hstate hhost hds]
  unfold mountSanDatastoreHost
  cases hdev : effDevice p with
  | none => rfl
  | some dev =>
    dsimp only
    by_cases hin : dev ∈ existingWwns d
    · rw [if_pos hin, mountExpand_no_options p w d dev _ hopts]
    · rw [if_neg hin]
/-- C3 as amended: over a name-deduplicated inventory, if the first run
succeeds and the datastore the second run would find (if any) has no
remaining expand options, then the second run, with no intervening
external change, reports `changed=false`.  (When remaining expand
options survive the first run, the second run may expand again or fail:
see the counterexample.) -/
theorem C3_second_run_unchanged (p : ModuleParams) (w : World)
    (hwf : (w.datastores.map Datastore.name).Nodup)
    (hsucc : ∃ c m, (reconcile p w).outcome = .exited c m)
    (hopts : ∀ d, findDatastore (reconcile p w).world p.datastore_name = some d →
      d.expandOptions = []) :
    (reconcile p (reconcile p w).world).outcome = .exited false none := by
  cases hh : findHost w p.esxi_hostname with
  | none =>
    rcases hsucc with ⟨c, m, hout⟩
    unfold reconcile at hout
    rw [hh] at hout
    exact absurd hout (by simp)
  | some esxi =>
  have hh2 : findHost (reconcile p w).world p.esxi_hostname = some esxi := by
    rw [findHost_congr p.esxi_hostname (reconcile_world_hosts p w)]
    exact hh
  cases hst : p.dsState with
  | absent =>
    cases hds : findDatastore w p.datastore_name with
    | none =>
      have hw : (reconcile p w).world = w := by
        rw [reconcile_absent_none p w esxi hst hh hds]
      rw [hw, reconcile_absent_none p w esxi hst hh hds]
    | some d =>
      have hds' : w.datastores.find? (fun x => x.name == p.datastore_name) = some d := hds
      have hdn : d.name = p.datastore_name := beq_iff_eq.mp (by simpa using List.find?_some hds')
      cases hf : firstUnmountFault w d.uuid d.hosts with
      | some pr =>
        obtain ⟨hF, msg⟩ := pr
        rcases hsucc with ⟨c, m, hout⟩
        rw [reconcile_absent_some p w esxi d hst hh hds,
          umountFound_fault p w d _ hF msg hf] at hout
        exact absurd hout (by simp)
      | none =>
        have hw : (reconcile p w).world = removeDs w d.name := by
          rw [reconcile_absent_some p w esxi d hst hh hds, umountFound_ok p w d _ hf]
        have hnone := findDatastore_removeDs w d.name hwf
        rw [hdn] at hw hnone
        have hnone2 : findDatastore (reconcile p w).world p.datastore_name = none := by
          rw [hw]
          exact hnone
        rw [reconcile_absent_none p (reconcile p w).world esxi hst hh2 hnone2]
  | present =>
    cases hds : findDatastore w p.datastore_name with
    | none =>
      cases hopt : lookupCreateOptions w (dsPathOf p) with
      | nil =>
        rcases hsucc with ⟨c, m, hout⟩
        rw [reconcile_present_none p w esxi hst hh hds,
          mountCreate_no_options p w esxi _ hopt] at hout
        exact absurd hout (by simp)
      | cons o rest =>
        have hw : (reconcile p w).world = createdWorld p w o := by
          rw [reconcile_present_none p w esxi hst hh hds]
          cases hcl : pyTruthy p.datastore_cluster_name with
          | false => rw [mountCreate_no_cluster p w esxi _ o rest hopt hcl]
          | true =>
            cases hmv : clusterMove p (createdWorld p w o) (pyStr p.datastore_cluster_name) with
            | none =>
              rcases hsucc with ⟨c, m, hout⟩
              rw [reconcile_present_none p w esxi hst hh hds,
                mountCreate_cluster_fail p w esxi _ o rest hopt hcl hmv] at hout
              exact absurd hout (by simp)
            | some pr =>
              obtain ⟨mv, msg⟩ := pr
              rw [mountCreate_cluster_ok p w esxi _ o rest mv msg hopt hcl hmv]
        have hfind : findDatastore (reconcile p w).world p.datastore_name =
            some { name := (createdSpec p o).volumeName
                 , uuid := (createdSpec p o).resultUuid
                 , extents := [{ diskName := (createdSpec p o).diskName }]
                 , hosts := [p.esxi_hostname]
                 , expandOptions := (createdSpec p o).resultExpandOptions } := by
          rw [hw]
          exact findDatastore_applyCreate w p.esxi_hostname (createdSpec p o) hds
        exact present_found_no_options_unchanged p (reconcile p w).world esxi _
          hh2 hst hfind (hopts _ hfind)
    | some d =>
      have hds' : w.datastores.find? (fun x => x.name == p.datastore_name) = some d := hds
      have hdn : d.name = p.datastore_name := beq_iff_eq.mp (by simpa using List.find?_some hds')
      cases hdev : effDevice p with
      | none =>
        have hw : (reconcile p w).world = w := by
          rw [reconcile_present_some p w esxi d hst hh hds]
          unfold mountSanDatastoreHost
          rw [hdev]
        rw [hw] at hopts ⊢
        exact present_found_no_options_unchanged p w esxi d hh hst hds (hopts d hds)
      | some dev =>
        by_cases hin : dev ∈ existingWwns d
        · by_cases hopt0 : d.expandOptions = []
          · have hw : (reconcile p w).world = w := by
              rw [reconcile_present_some p w esxi d hst hh hds]
              unfold mountSanDatastoreHost
              rw [hdev]
              dsimp only
              rw [if_pos hin, mountExpand_no_options p w d dev _ hopt0]
            rw [hw] at hopts ⊢
            exact present_found_no_options_unchanged p w esxi d hh hst hds (hopts d hds)
          · cases hmatch : d.expandOptions.filter
                (fun x => pySubstr (pyLower dev) x.spec.extent.diskName) with
            | nil =>
              rcases hsucc with ⟨c, m, hout⟩
              rw [reconcile_present_some p w esxi d hst hh hds] at hout
              unfold mountSanDatastoreHost at hout
              rw [hdev] at hout
              dsimp only at hout
              rw [if_pos hin, mountExpand_no_match p w d dev _ hopt0 hmatch] at hout
              exact absurd hout (by simp)
            | cons mo mrest =>
              have hw : (reconcile p w).world = applyExpand w p.datastore_name mo := by
                rw [reconcile_present_some p w esxi d hst hh hds]
                unfold mountSanDatastoreHost
                rw [hdev]
                dsimp only
                rw [if_pos hin, mountExpand_match p w d dev _ mo mrest hmatch, hdn]
              have hfind : findDatastore (reconcile p w).world p.datastore_name =
                  some { d with expandOptions := d.expandOptions.erase mo } := by
                rw [hw]
                exact findDatastore_applyExpand w p.datastore_name mo d hds
              exact present_found_no_options_unchanged p (reconcile p w).world esxi _
                hh2 hst hfind (hopts _ hfind)
        · have hw : (reconcile p w).world = w := by
            rw [reconcile_present_some p w esxi d hst hh hds]
            unfold mountSanDatastoreHost
            rw [hdev]
            dsimp only
            rw [if_neg hin]
          rw [hw] at hopts ⊢
          exact present_found_no_options_unchanged p w esxi d hh hst hds (hopts d hds)

/-- Witness for the amended C3 at a concrete already-converged absent
world: both hypotheses hold and the second run reports `changed=false`. -/
theorem C3_witness :
    ((C7exWorld.datastores.map Datastore.name).Nodup ∧
      (reconcile C7exParams C7exWorld).outcome = .exited false none) ∧
    (reconcile C7exParams (reconcile C7exParams C7exWorld).world).outcome =
      .exited false none :=
  ⟨by decide, C3_second_run_unchanged C7exParams C7exWorld (by decide)
    ⟨false, none, by decide⟩
    (fun d hd => Option.noConfusion
      ((by decide : findDatastore (reconcile C7exParams C7exWorld).world
          C7exParams.datastore_name = none).symm.trans hd))⟩

end SanDatastore
